import Mathlib

/-!
Verification development for the balaping uptime-monitor backend.

The definitions below are shallow embeddings of the scheduling cache, the
status-transition and incident state machine, the passive check executors and
the alert dispatcher of the repository.  Machine integers of the JavaScript
source are modelled as Nat (timestamps, counters that the code keeps
non-negative by construction) or Int (fields whose sign behaviour is itself
under scrutiny, such as consecutiveFailures and daysRemaining).  Fallible
lookups are modelled with Option.  Each definition carries a comment naming
the source function it embeds.
-/

namespace Balaping

/-- Monitor status values.  The Monitor schema enumerates
up, down, degraded, pending; the check pipeline itself only ever writes
pending, up or down. -/
inductive MStatus where
  | pending
  | up
  | down
  | degraded
deriving DecidableEq

/-- Incident status enum of the Incident schema (src/models/Incident.js). -/
inductive IncStatus where
  | investigating
  | identified
  | monitoring
  | resolved
deriving DecidableEq

/-- Incident severity enum of the Incident schema. -/
inductive Severity where
  | minor
  | major
  | critical
deriving DecidableEq

/-- Incident origin enum (field named type in the Incident schema). -/
inductive IncOrigin where
  | auto
  | manual
deriving DecidableEq

/-- Alert event types dispatched by the workers. -/
inductive AlertType where
  | down
  | up
  | sslExpiry
  | incidentEvent
deriving DecidableEq

/-- JavaScript x || d on a numeric field: 0 is falsy and replaced by the
default d.  Used for alertAfterFailures || 1 (worker.js line 188,
bullWorker.js line 210). -/
def jsOrInt (x d : Int) : Int :=
  if x = 0 then d else x

/-- JavaScript x || d on a Nat-valued field. -/
def jsOrNat (x d : Nat) : Nat :=
  if x = 0 then d else x

/-- One entry of the in-memory scheduling cache
(src/workers/workerCache.js, constructor comment and addMonitor lines 15-37). -/
structure CacheEntry where
  monitorId : Nat
  teamId : Nat
  url : String
  method : String
  intervalSec : Nat
  expectedCode : Nat
  timeout : Nat
  headers : List (String × String)
  body : Option String
  alertAfterFailures : Int
  nextRunAt : Nat
  lastStatus : MStatus
  lastResponseMs : Nat
  consecutiveFailures : Int
  active : Bool
deriving DecidableEq

/-- The fields of a Monitor document that the scheduling cache reads
(src/models/Monitor.js; optional fields carry the schema defaults applied
with || in workerCache.js lines 30-32). -/
structure MonitorDoc where
  id : Nat
  teamId : Nat
  url : String
  method : String
  intervalSec : Nat
  expectedCode : Nat
  timeout : Nat
  headers : List (String × String)
  body : Option String
  alertAfterFailures : Int
  active : Bool
  lastStatus : Option MStatus
  lastResponseMs : Option Nat
  consecutiveFailures : Option Int
deriving DecidableEq

/-- The scheduling cache: a JavaScript Map from monitor id to entry,
modelled as a partial function. -/
abbrev Cache := Nat → Option CacheEntry

/-- WorkerCache.removeMonitor (src/workers/workerCache.js lines 74-77):
deletes the entry. -/
def removeMonitor (cache : Cache) (monitorId : Nat) : Cache :=
  fun k => if k = monitorId then none else cache k

/-- WorkerCache.addMonitor (src/workers/workerCache.js lines 15-37):
no-op for an inactive monitor, otherwise inserts a fresh entry with
nextRunAt = now, status and counters seeded from the document with
falsy-defaults (lastStatus || pending, lastResponseMs || 0,
consecutiveFailures || 0). -/
def addMonitor (cache : Cache) (m : MonitorDoc) (now : Nat) : Cache :=
  if m.active = false then cache
  else fun k =>
    if k = m.id then
      some {
        monitorId := m.id
        teamId := m.teamId
        url := m.url
        method := m.method
        intervalSec := m.intervalSec
        expectedCode := m.expectedCode
        timeout := m.timeout
        headers := m.headers
        body := m.body
        alertAfterFailures := m.alertAfterFailures
        nextRunAt := now
        lastStatus := (m.lastStatus).getD MStatus.pending
        lastResponseMs := (m.lastResponseMs).getD 0
        consecutiveFailures := (m.consecutiveFailures).getD 0
        active := true }
    else cache k

/-- WorkerCache.updateMonitor (src/workers/workerCache.js lines 42-69):
an inactive monitor is removed; otherwise the entry is rewritten with the
config fields of the document while nextRunAt, lastStatus, lastResponseMs
and consecutiveFailures are taken from the existing entry when one exists
(now and fresh defaults otherwise). -/
def updateMonitor (cache : Cache) (m : MonitorDoc) (now : Nat) : Cache :=
  let existing := cache m.id
  if m.active = false then removeMonitor cache m.id
  else fun k =>
    if k = m.id then
      some {
        monitorId := m.id
        teamId := m.teamId
        url := m.url
        method := m.method
        intervalSec := m.intervalSec
        expectedCode := m.expectedCode
        timeout := m.timeout
        headers := m.headers
        body := m.body
        alertAfterFailures := m.alertAfterFailures
        nextRunAt := match existing with
          | some e => e.nextRunAt
          | none => now
        lastStatus := match existing with
          | some e => e.lastStatus
          | none => MStatus.pending
        lastResponseMs := match existing with
          | some e => e.lastResponseMs
          | none => 0
        consecutiveFailures := match existing with
          | some e => e.consecutiveFailures
          | none => 0
        active := true }
    else cache k

/-- The transition report returned by WorkerCache.updateAfterCheck
(src/workers/workerCache.js lines 143-149) and computed inline by
bullWorker.processMonitorCheck (src/workers/bullWorker.js lines 121-130). -/
structure TransitionInfo where
  statusChanged : Bool
  previousStatus : MStatus
  newStatus : MStatus
  consecutiveFailures : Int
  alertAfterFailures : Int
deriving DecidableEq

/-- WorkerCache.updateAfterCheck (src/workers/workerCache.js lines 134-152)
for a present entry: records the result on the entry and reports the
transition.  Note that statusChanged here is just
previousStatus different from lastStatus, with no special case for a
pending previous status. -/
def updateAfterCheck (e : CacheEntry) (success : Bool) (responseMs nextRunAt : Nat) :
    CacheEntry × TransitionInfo :=
  let previousStatus := e.lastStatus
  let newStatus := if success then MStatus.up else MStatus.down
  let newConsecutive : Int := if success then 0 else e.consecutiveFailures + 1
  ({ e with
      lastStatus := newStatus
      lastResponseMs := responseMs
      nextRunAt := nextRunAt
      consecutiveFailures := newConsecutive },
   { statusChanged := decide (previousStatus ≠ newStatus)
     previousStatus := previousStatus
     newStatus := newStatus
     consecutiveFailures := newConsecutive
     alertAfterFailures := e.alertAfterFailures })

/-- The monitor document fields consumed by the two handleStatusChange
implementations. -/
structure MonState where
  alertAfterFailures : Int
  lastStatus : MStatus
  consecutiveFailures : Int
  currentIncidentId : Option Nat
deriving DecidableEq

/-- Transition computation of the timer-driven mode: checkMonitor feeds
handleStatusChange from the report of WorkerCache.updateAfterCheck
(src/workers/worker.js lines 106-159, src/workers/workerCache.js
lines 134-152). -/
def timerTransition (m : MonState) (success : Bool) : TransitionInfo :=
  let newStatus := if success then MStatus.up else MStatus.down
  { statusChanged := decide (m.lastStatus ≠ newStatus)
    previousStatus := m.lastStatus
    newStatus := newStatus
    consecutiveFailures := if success then 0 else m.consecutiveFailures + 1
    alertAfterFailures := m.alertAfterFailures }

/-- Transition computation of the queue-backed mode
(src/workers/bullWorker.js lines 112-130): statusChanged additionally
requires the previous status to differ from pending, and
consecutiveFailures starts from monitor.consecutiveFailures || 0. -/
def bullTransition (m : MonState) (success : Bool) : TransitionInfo :=
  let newStatus := if success then MStatus.up else MStatus.down
  { statusChanged := decide (m.lastStatus ≠ newStatus) && decide (m.lastStatus ≠ MStatus.pending)
    previousStatus := m.lastStatus
    newStatus := newStatus
    consecutiveFailures := if success then 0 else m.consecutiveFailures + 1
    alertAfterFailures := m.alertAfterFailures }

/-- Incident record, fields of src/models/Incident.js that the state
machine reads and writes.  Times in milliseconds; duration is the
difference computed at resolution time. -/
structure Incident where
  id : Nat
  status : IncStatus
  severity : Severity
  origin : IncOrigin
  startedAt : Nat
  resolvedAt : Option Nat
  duration : Option Nat
deriving DecidableEq

/-- The state touched by one check-processing step: the monitor document,
the incident store, a fresh-id counter for created incidents, and the
log of alert types requested so far. -/
structure World where
  monitor : MonState
  incidents : List Incident
  nextIncidentId : Nat
  alerts : List AlertType
deriving DecidableEq

/-- The recovery branch body shared verbatim by both modes
(src/workers/worker.js lines 238-250 and src/workers/bullWorker.js
lines 250-261): the incident found under the given id, when not already
resolved, gets status resolved, resolvedAt = now and
duration = now - startedAt.  The two new Date() calls of one synchronous
handler are modelled as the same instant now. -/
def resolveIncidents (incidents : List Incident) (iid : Nat) (now : Nat) : List Incident :=
  incidents.map fun i =>
    if i.id = iid ∧ i.status ≠ IncStatus.resolved then
      { i with
          status := IncStatus.resolved
          resolvedAt := some now
          duration := some (now - i.startedAt) }
    else i

/-- The down-branch condition of the timer-driven handleStatusChange
(src/workers/worker.js lines 184-193): the failure count just reached the
alertAfterFailures || 1 threshold, or the monitor is down past the
threshold with no linked incident (the missed-incident catch-up rule). -/
def workerDownTrigger (m : MonState) (ti : TransitionInfo) : Bool :=
  let threshold := jsOrInt m.alertAfterFailures 1
  let isThresholdReached := decide (ti.consecutiveFailures = threshold)
  let isAlreadyDownMissingIncident :=
    decide (ti.newStatus = MStatus.down) &&
      decide (threshold < ti.consecutiveFailures) && m.currentIncidentId.isNone
  (decide (ti.newStatus = MStatus.down) && isThresholdReached) ||
    isAlreadyDownMissingIncident

/-- The down-branch condition of the queue-backed handleStatusChange
(src/workers/bullWorker.js line 210): only the exact threshold test, with
no catch-up disjunct. -/
def bullDownTrigger (m : MonState) (ti : TransitionInfo) : Bool :=
  decide (ti.newStatus = MStatus.down) &&
    decide (ti.consecutiveFailures = jsOrInt m.alertAfterFailures 1)

/-- The recovery-branch condition, identical in both modes
(src/workers/worker.js line 233, src/workers/bullWorker.js line 246). -/
def recoveryTrigger (ti : TransitionInfo) : Bool :=
  ti.statusChanged && decide (ti.newStatus = MStatus.up) &&
    decide (ti.previousStatus = MStatus.down)

/-- handleStatusChange of the timer-driven worker
(src/workers/worker.js lines 168-273).  The down branch creates an
investigating/major/auto incident, links it and requests a down alert.
The recovery branch (lines 233-272) resolves a linked open incident,
clears the link and requests an up alert. -/
def workerHandleStatusChange (w : World) (ti : TransitionInfo) (now : Nat) : World :=
  let m := w.monitor
  let w1 :=
    if workerDownTrigger m ti then
      let inc : Incident :=
        { id := w.nextIncidentId
          status := IncStatus.investigating
          severity := Severity.major
          origin := IncOrigin.auto
          startedAt := now
          resolvedAt := none
          duration := none }
      { w with
          incidents := w.incidents ++ [inc]
          monitor := { m with currentIncidentId := some inc.id }
          nextIncidentId := w.nextIncidentId + 1
          alerts := w.alerts ++ [AlertType.down] }
    else w
  if recoveryTrigger ti then
    let m1 := w1.monitor
    let w2 :=
      match m1.currentIncidentId with
      | some iid =>
        { w1 with
            incidents := resolveIncidents w1.incidents iid now
            monitor := { m1 with currentIncidentId := none } }
      | none => w1
    { w2 with alerts := w2.alerts ++ [AlertType.up] }
  else w1

/-- handleStatusChange of the queue-backed worker
(src/workers/bullWorker.js lines 193-287).  Identical to the
timer-driven version except that the down branch fires only when
consecutiveFailures equals the alertAfterFailures || 1 threshold
(line 210): there is no missed-incident catch-up disjunct. -/
def bullHandleStatusChange (w : World) (ti : TransitionInfo) (now : Nat) : World :=
  let m := w.monitor
  let w1 :=
    if bullDownTrigger m ti then
      let inc : Incident :=
        { id := w.nextIncidentId
          status := IncStatus.investigating
          severity := Severity.major
          origin := IncOrigin.auto
          startedAt := now
          resolvedAt := none
          duration := none }
      { w with
          incidents := w.incidents ++ [inc]
          monitor := { m with currentIncidentId := some inc.id }
          nextIncidentId := w.nextIncidentId + 1
          alerts := w.alerts ++ [AlertType.down] }
    else w
  if recoveryTrigger ti then
    let m1 := w1.monitor
    let w2 :=
      match m1.currentIncidentId with
      | some iid =>
        { w1 with
            incidents := resolveIncidents w1.incidents iid now
            monitor := { m1 with currentIncidentId := none } }
      | none => w1
    { w2 with alerts := w2.alerts ++ [AlertType.up] }
  else w1

/-- One timer-driven check-processing step: compute the transition from
the prior monitor state (WorkerCache.updateAfterCheck), persist the new
status and failure count on the monitor, then run handleStatusChange on
the refreshed monitor (src/workers/worker.js lines 106-159). -/
def timerStep (w : World) (success : Bool) (now : Nat) : World :=
  let ti := timerTransition w.monitor success
  let w1 := { w with
    monitor := { w.monitor with
      lastStatus := ti.newStatus
      consecutiveFailures := ti.consecutiveFailures } }
  workerHandleStatusChange w1 ti now

/-- One queue-backed check-processing step
(src/workers/bullWorker.js processMonitorCheck, lines 104-188), restricted
to the state-machine-relevant effects. -/
def bullStep (w : World) (success : Bool) (now : Nat) : World :=
  let ti := bullTransition w.monitor success
  let w1 := { w with
    monitor := { w.monitor with
      lastStatus := ti.newStatus
      consecutiveFailures := ti.consecutiveFailures } }
  bullHandleStatusChange w1 ti now

/-- Alert channel state, the fields of src/models/AlertChannel.js that the
dispatcher touches.  The schema default for cooldownMinutes is 5, with the
comment that no more than one alert per five minutes per monitor should be
sent. -/
structure ChannelState where
  cooldownMinutes : Nat
  lastAlertAt : Option Nat
  alertsSent : Nat
  lastError : Option String
deriving DecidableEq

/-- sendToChannel of the alert dispatcher
(src/services/alerts/telegram.js, dispatcher section lines 354-393): it
switches on the channel type and calls the concrete sender immediately.
No cooldown state is consulted: neither cooldownMinutes nor lastAlertAt is
read before the send.  deliveryOk abstracts whether the concrete sender
resolved or threw; on success alertsSent is incremented, lastAlertAt set to
now and lastError cleared, on failure lastError is recorded.  The Bool
component reports whether a delivery attempt was made. -/
def sendToChannel (c : ChannelState) (now : Nat) (deliveryOk : Bool) : ChannelState × Bool :=
  if deliveryOk then
    ({ c with alertsSent := c.alertsSent + 1, lastAlertAt := some now, lastError := none }, true)
  else
    ({ c with lastError := some "send error" }, true)

/-- JavaScript strings subjected to character-level operations are
modelled as lists of characters (Lean string primitives do not reduce in
the kernel).  toLowerCase maps the lowercasing over the characters. -/
def jsToLower (s : List Char) : List Char := s.map Char.toLower

/-- JavaScript String.prototype.includes: containment of the needle as a
contiguous substring of the haystack; an empty needle always matches. -/
def jsIncludes (hay needle : List Char) : Bool :=
  decide (needle <:+: hay)

/-- Result record of checkKeyword (src/workers/checks/keyword.js). -/
structure KeywordCheckResult where
  success : Bool
  error : Option String
  keywordFound : Bool
deriving DecidableEq

/-- checkKeyword (src/workers/checks/keyword.js lines 11-77) restricted to
requests that completed with a response: the status code and decoded body
are inputs.  A status below 200 or at or above 400 fails the check
immediately with an HTTP error (lines 32-34); otherwise a missing or empty
keyword fails with a config error (lines 44-46); otherwise the lowercased
body is searched for the lowercased keyword and the mode
(keywordType || contains) decides success (lines 48-61); any other mode
leaves success false.  Error strings keep the structure of the source
messages without the interpolated values. -/
def checkKeywordCompleted (statusCode : Nat) (body : List Char)
    (keyword : Option (List Char)) (keywordType : String) : KeywordCheckResult :=
  if statusCode < 200 ∨ 400 ≤ statusCode then
    { success := false, error := some ("HTTP " ++ toString statusCode), keywordFound := false }
  else
    match keyword with
    | none =>
      { success := false, error := some "No keyword specified", keywordFound := false }
    | some kw =>
      if kw = [] then
        { success := false, error := some "No keyword specified", keywordFound := false }
      else
        let kt := if keywordType = "" then "contains" else keywordType
        let keywordFound := jsIncludes (jsToLower body) (jsToLower kw)
        if kt = "contains" then
          { success := keywordFound
            error := if keywordFound then none else some "Keyword not found"
            keywordFound := keywordFound }
        else if kt = "not_contains" then
          { success := !keywordFound
            error := if keywordFound then some "Keyword found (should not be present)" else none
            keywordFound := keywordFound }
        else
          { success := false, error := none, keywordFound := keywordFound }

/-- SSL metadata attached to a completed HTTPS check.  getSslInfo
(src/workers/checks/http.js source, in src/unnamed/part_002) computes
daysRemaining as the ceiling of the time to certificate expiry in days;
it can be zero or negative for an expired certificate, hence Int.  The
remaining fields of the object (expiresAt, issuer, valid) play no role in
the alert decision. -/
structure SslInfo where
  daysRemaining : Int
deriving DecidableEq

/-- The fixed alert thresholds of handleSslExpiryAlert
(src/workers/bullWorker.js line 297). -/
def sslAlertDays : List Int := [30, 14, 7, 3, 1]

/-- Whether a completed check requests an sslExpiry alert: the guard of
processMonitorCheck (src/workers/bullWorker.js lines 180-182, requiring
SSL metadata with daysRemaining at most 30) combined with the exact
threshold test of handleSslExpiryAlert (lines 296-309). -/
def sslExpiryAlertFires (sslInfo : Option SslInfo) : Bool :=
  match sslInfo with
  | some info => decide (info.daysRemaining ≤ 30) && sslAlertDays.contains info.daysRemaining
  | none => false

/-- Number of sslExpiry alerts requested at a given threshold value over a
sequence of checks, each check described by its optional SSL metadata. -/
def sslAlertsAt (trace : List (Option SslInfo)) (d : Int) : Nat :=
  (trace.filter fun s =>
    sslExpiryAlertFires s &&
      (match s with
       | some i => decide (i.daysRemaining = d)
       | none => false)).length

/-- Result record of the passive heartbeat executor. -/
structure HeartbeatResult where
  success : Bool
  error : Option String
  responseMs : Nat
deriving DecidableEq

/-- checkHeartbeat (heartbeat executor appended in src/workers/workerCache.js
lines 194-226).  Times in milliseconds.  With no recorded heartbeat the
check fails at once.  Otherwise the source compares
(now - lastHeartbeat) / 1000 seconds against heartbeatInterval || 300 plus
a 30 second grace period; the division-free comparison in milliseconds
below is the same test.  The failure message carries a rounded
missed-by figure in the source, elided here. -/
def checkHeartbeat (now : Nat) (lastHeartbeat : Option Nat) (heartbeatInterval : Nat) :
    HeartbeatResult :=
  let expectedInterval := jsOrNat heartbeatInterval 300
  let gracePeriod := 30
  match lastHeartbeat with
  | none =>
    { success := false, error := some "No heartbeat received yet", responseMs := 0 }
  | some lh =>
    if now - lh ≤ (expectedInterval + gracePeriod) * 1000 then
      { success := true, error := none, responseMs := 0 }
    else
      { success := false, error := some "Heartbeat missed", responseMs := 0 }

/-- Milliseconds per minute. -/
def msPerMin : Nat := 60000

/-- Milliseconds per hour. -/
def msPerHour : Nat := 3600000

/-- Milliseconds per day.  JavaScript setDate(getDate() + 1) advances the
local calendar by one day; the model uses a fixed-length day
(daylight-saving shifts are out of scope). -/
def msPerDay : Nat := 86400000

/-- The minutes field of a millisecond timestamp. -/
def minuteOfHour (t : Nat) : Nat := t / msPerMin % 60

/-- The hours field of a millisecond timestamp. -/
def hourOfDay (t : Nat) : Nat := t / msPerHour % 24

/-- JavaScript Date.setMinutes: replaces the minutes field, keeping
seconds and milliseconds and the larger fields (values of 60 and above
roll over into the hour, as in the source). -/
def setMinutes (t m : Nat) : Nat :=
  t - minuteOfHour t * msPerMin + m * msPerMin

/-- JavaScript Date.setHours: replaces the hours field, keeping minutes,
seconds, milliseconds and the day. -/
def setHours (t h : Nat) : Nat :=
  t - hourOfDay t * msPerHour + h * msPerHour

/-- JavaScript setSeconds(0) followed by setMilliseconds(0). -/
def clearSubMinute (t : Nat) : Nat := t - t % msPerMin

/-- JavaScript parseInt on a cron field, for the decimal-digit strings the
scheduler meets in practice: a nonempty all-digit field parses to its
value, anything else is modelled as none (in the source a non-numeric
field makes parseInt yield NaN, producing an invalid date whose
comparisons are all false, which callers cannot distinguish from null). -/
def parseCronField (cs : List Char) : Option Nat :=
  if cs ≠ [] ∧ cs.all Char.isDigit then
    some (cs.foldl (fun n c => n * 10 + (c.toNat - 48)) 0)
  else none

/-- getNextCronRun (src/workers/checks/cronjob.js lines 13-49).  The
expression is trimmed and split on whitespace runs; anything but five
fields yields null.  A literal star leaves the corresponding field of now
untouched; a numeric field is installed with setMinutes or setHours and,
if the candidate did not move past now, an hour or a day is added.
Seconds and milliseconds are zeroed at the end. -/
def getNextCronRun (cronExpression : List Char) (now : Nat) : Option Nat :=
  let parts := (List.splitOnP Char.isWhitespace cronExpression).filter (· ≠ [])
  match parts with
  | [minute, hour, _dayOfMonth, _month, _dayOfWeek] =>
    let afterMinute : Option Nat :=
      if minute = ['*'] then some now
      else match parseCronField minute with
        | some m =>
          let cand := setMinutes now m
          some (if cand ≤ now then cand + msPerHour else cand)
        | none => none
    match afterMinute with
    | none => none
    | some n1 =>
      let afterHour : Option Nat :=
        if hour = ['*'] then some n1
        else match parseCronField hour with
          | some h =>
            let cand := setHours n1 h
            some (if cand ≤ now then cand + msPerDay else cand)
          | none => none
      match afterHour with
      | none => none
      | some n2 => some (clearSubMinute n2)
  | _ => none

/-- Result record of the passive cronjob executor. -/
structure CronCheckResult where
  success : Bool
  error : Option String
deriving DecidableEq

/-- checkCronjob (src/workers/checks/cronjob.js lines 54-105).  Times in
milliseconds, grace period in seconds with the falsy default
cronGracePeriod || 60.  A missing or empty expression fails at once.
With no recorded run the check succeeds until now passes the next
computed run time plus the grace period, after which it fails with the
never-reported error.  With a recorded run the expected time is
expectedCronRun || getNextCronRun and the check fails only when now is
past that time plus grace and the recorded run predates it.  The
missed-run message carries the expected timestamp in the source, elided
here. -/
def checkCronjob (now : Nat) (lastCronRun : Option Nat) (cronGracePeriod : Nat)
    (cronExpression : Option (List Char)) (expectedCronRun : Option Nat) : CronCheckResult :=
  let gracePeriod := jsOrNat cronGracePeriod 60
  match cronExpression with
  | none => { success := false, error := some "No cron expression specified" }
  | some expr =>
    if expr = [] then { success := false, error := some "No cron expression specified" }
    else
      match lastCronRun with
      | none =>
        match getNextCronRun expr now with
        | some e =>
          if e + gracePeriod * 1000 < now then
            { success := false, error := some "Cron job never reported" }
          else
            { success := true, error := none }
        | none => { success := true, error := none }
      | some lcr =>
        let expectedRun :=
          match expectedCronRun with
          | some e => some e
          | none => getNextCronRun expr now
        match expectedRun with
        | some e =>
          if e + gracePeriod * 1000 < now ∧ lcr < e then
            { success := false, error := some "Cron job missed" }
          else
            { success := true, error := none }
        | none => { success := true, error := none }

/-- Iterated WorkerCache.updateAfterCheck over a sequence of check results.
The responseMs and nextRunAt arguments do not influence the failure
counter and are fixed at 0 for the iteration. -/
def runChecks (e : CacheEntry) (results : List Bool) : CacheEntry :=
  results.foldl (fun acc s => (updateAfterCheck acc s 0 0).1) e

theorem runChecks_cons (e : CacheEntry) (s : Bool) (l : List Bool) :
    runChecks e (s :: l) = runChecks ((updateAfterCheck e s 0 0).1) l := rfl

theorem runChecks_append (e : CacheEntry) (l1 l2 : List Bool) :
    runChecks e (l1 ++ l2) = runChecks (runChecks e l1) l2 := by
  simp [runChecks, List.foldl_append]

theorem runChecks_replicate_false (e : CacheEntry) (N : Nat) :
    (runChecks e (List.replicate N false)).consecutiveFailures =
      e.consecutiveFailures + (N : Int) := by
  induction N generalizing e with
  | zero => simp [runChecks]
  | succ n ih =>
    rw [List.replicate_succ, runChecks_cons, ih]
    simp [updateAfterCheck]
    ring

/-- C7: consecutiveFailures is reset to 0 by any successful check and set
to the prior value plus 1 by any failed check, in both the timer-mode
cache update and the queue-mode transition; iterating the cache update
keeps the counter non-negative from any non-negative start, and a success
followed by N failures leaves the counter at exactly N. -/
theorem c7_consecutive_failures :
    (∀ (e : CacheEntry) (rms nra : Nat),
        ((updateAfterCheck e true rms nra).1).consecutiveFailures = 0 ∧
        ((updateAfterCheck e false rms nra).1).consecutiveFailures =
          e.consecutiveFailures + 1) ∧
    (∀ (m : MonState),
        (bullTransition m true).consecutiveFailures = 0 ∧
        (bullTransition m false).consecutiveFailures = m.consecutiveFailures + 1) ∧
    (∀ (e : CacheEntry) (results : List Bool),
        0 ≤ e.consecutiveFailures → 0 ≤ (runChecks e results).consecutiveFailures) ∧
    (∀ (e : CacheEntry) (pre : List Bool) (N : Nat),
        (runChecks e (pre ++ true :: List.replicate N false)).consecutiveFailures =
          (N : Int)) := by
  refine ⟨fun e rms nra => ⟨rfl, rfl⟩, fun m => ⟨rfl, rfl⟩, ?_, ?_⟩
  · intro e results
    induction results generalizing e with
    | nil => intro h; simpa [runChecks] using h
    | cons s rest ih =>
      intro h
      rw [runChecks_cons]
      apply ih
      cases s with
      | false =>
        simp [updateAfterCheck]
        omega
      | true => simp [updateAfterCheck]
  · intro e pre N
    rw [runChecks_append, runChecks_cons, runChecks_replicate_false]
    simp [updateAfterCheck]

/-- Witness for C7 at concrete inputs. -/
theorem c7_consecutive_failures_witness :
    (0 : Int) ≤
      (runChecks
        { monitorId := 1, teamId := 1, url := "https://x.test", method := "GET"
          intervalSec := 60, expectedCode := 200, timeout := 30000, headers := []
          body := none, alertAfterFailures := 1, nextRunAt := 0
          lastStatus := MStatus.pending, lastResponseMs := 0
          consecutiveFailures := 0, active := true }
        [false, true, false]).consecutiveFailures ∧
    (runChecks
        { monitorId := 1, teamId := 1, url := "https://x.test", method := "GET"
          intervalSec := 60, expectedCode := 200, timeout := 30000, headers := []
          body := none, alertAfterFailures := 1, nextRunAt := 0
          lastStatus := MStatus.pending, lastResponseMs := 0
          consecutiveFailures := 7, active := true }
        ([false] ++ true :: List.replicate 2 false)).consecutiveFailures = (2 : Int) :=
  ⟨c7_consecutive_failures.2.2.1 _ _ (by decide),
   c7_consecutive_failures.2.2.2 _ [false] 2⟩

/-- C8: for an active monitor whose id is already cached, updateMonitor
replaces only the configuration fields, preserving the scheduling state
fields nextRunAt, lastStatus, lastResponseMs and consecutiveFailures and
every other cache entry; for an inactive monitor it acts exactly as
removeMonitor. -/
theorem c8_update_monitor_frame :
    (∀ (cache : Cache) (m : MonitorDoc) (now : Nat) (e : CacheEntry),
        m.active = true → cache m.id = some e →
        ((updateMonitor cache m now m.id).map CacheEntry.nextRunAt = some e.nextRunAt ∧
         (updateMonitor cache m now m.id).map CacheEntry.lastStatus = some e.lastStatus ∧
         (updateMonitor cache m now m.id).map CacheEntry.lastResponseMs =
           some e.lastResponseMs ∧
         (updateMonitor cache m now m.id).map CacheEntry.consecutiveFailures =
           some e.consecutiveFailures ∧
         (updateMonitor cache m now m.id).map CacheEntry.url = some m.url ∧
         (updateMonitor cache m now m.id).map CacheEntry.method = some m.method ∧
         (updateMonitor cache m now m.id).map CacheEntry.intervalSec = some m.intervalSec ∧
         (updateMonitor cache m now m.id).map CacheEntry.timeout = some m.timeout ∧
         (updateMonitor cache m now m.id).map CacheEntry.alertAfterFailures =
           some m.alertAfterFailures ∧
         (∀ k, k ≠ m.id → updateMonitor cache m now k = cache k))) ∧
    (∀ (cache : Cache) (m : MonitorDoc) (now : Nat),
        m.active = false → updateMonitor cache m now = removeMonitor cache m.id) := by
  constructor
  · intro cache m now e hact hent
    simp only [updateMonitor, hact, hent, Bool.true_eq_false, if_false, if_pos rfl,
      Option.map_some]
    refine ⟨rfl, rfl, rfl, rfl, rfl, rfl, rfl, rfl, rfl, ?_⟩
    intro k hk
    simp [hk]
  · intro cache m now hact
    simp [updateMonitor, hact]

/-- Witness for C8 at concrete inputs: an active update on a cached entry
preserves the scheduling fields, and an inactive update equals removal. -/
theorem c8_update_monitor_frame_witness :
    ((updateMonitor
        (fun k =>
          if k = 5 then
            some { monitorId := 5, teamId := 1, url := "https://old.test", method := "GET"
                   intervalSec := 60, expectedCode := 200, timeout := 30000, headers := []
                   body := none, alertAfterFailures := 1, nextRunAt := 777
                   lastStatus := MStatus.down, lastResponseMs := 42
                   consecutiveFailures := 3, active := true }
          else none)
        { id := 5, teamId := 1, url := "https://new.test", method := "POST"
          intervalSec := 120, expectedCode := 201, timeout := 10000, headers := []
          body := none, alertAfterFailures := 2, active := true
          lastStatus := none, lastResponseMs := none, consecutiveFailures := none }
        999 5).map CacheEntry.nextRunAt = some 777) ∧
    updateMonitor
        (fun _ => none)
        { id := 5, teamId := 1, url := "https://new.test", method := "POST"
          intervalSec := 120, expectedCode := 201, timeout := 10000, headers := []
          body := none, alertAfterFailures := 2, active := false
          lastStatus := none, lastResponseMs := none, consecutiveFailures := none }
        999 = removeMonitor (fun _ => none) 5 :=
  ⟨(c8_update_monitor_frame.1 _ _ 999 _ rfl rfl).1,
   c8_update_monitor_frame.2 _ _ 999 rfl⟩

/-- C2: the dispatcher makes a delivery attempt on every call, for every
channel state; in particular a second dispatch 60000 ms after a first one
on a channel with the default cooldownMinutes = 5 (300000 ms) is attempted
as well, leaving two delivery attempts and two sends recorded inside one
cooldown window.  This exhibits the absence of the cooldown gate claimed
by the specification: sendToChannel never reads cooldownMinutes or
lastAlertAt before sending. -/
theorem c2_no_cooldown_gate :
    (∀ (c : ChannelState) (now : Nat) (ok : Bool), (sendToChannel c now ok).2 = true) ∧
    ((sendToChannel
        { cooldownMinutes := 5, lastAlertAt := none, alertsSent := 0, lastError := none }
        0 true).2 = true ∧
     ((sendToChannel
        { cooldownMinutes := 5, lastAlertAt := none, alertsSent := 0, lastError := none }
        0 true).1).lastAlertAt = some 0 ∧
     (sendToChannel
        ((sendToChannel
          { cooldownMinutes := 5, lastAlertAt := none, alertsSent := 0, lastError := none }
          0 true).1)
        60000 true).2 = true ∧
     ((sendToChannel
        ((sendToChannel
          { cooldownMinutes := 5, lastAlertAt := none, alertsSent := 0, lastError := none }
          0 true).1)
        60000 true).1).alertsSent = 2) := by
  refine ⟨fun c now ok => ?_, by decide⟩
  cases ok <;> rfl

/-- C4 counterexample: in the timer mode, a check on a fresh cache entry
whose previous status is pending reports statusChanged = true, while the
claimed formula previousStatus different from newStatus AND previousStatus
different from pending evaluates to false there. -/
theorem c4_statuschanged_counterexample :
    ((updateAfterCheck
        { monitorId := 1, teamId := 1, url := "https://x.test", method := "GET"
          intervalSec := 60, expectedCode := 200, timeout := 30000, headers := []
          body := none, alertAfterFailures := 1, nextRunAt := 0
          lastStatus := MStatus.pending, lastResponseMs := 0
          consecutiveFailures := 0, active := true }
        true 100 500).2).statusChanged = true ∧
    ¬(MStatus.pending ≠ MStatus.up ∧ MStatus.pending ≠ MStatus.pending) := by
  decide

/-- C4 amended: the queue mode computes statusChanged as
previousStatus different from newStatus AND previousStatus different from
pending, while the timer mode computes just
previousStatus different from newStatus, so the very first check of a
fresh monitor yields statusChanged = false in the queue mode but true in
the timer mode; the down-to-up and up-to-down transitions yield true in
both modes. -/
theorem c4_statuschanged_amended :
    (∀ (m : MonState) (success : Bool),
        ((bullTransition m success).statusChanged = true ↔
          (m.lastStatus ≠ (if success then MStatus.up else MStatus.down) ∧
           m.lastStatus ≠ MStatus.pending))) ∧
    (∀ (e : CacheEntry) (success : Bool) (rms nra : Nat),
        (((updateAfterCheck e success rms nra).2).statusChanged = true ↔
          e.lastStatus ≠ (if success then MStatus.up else MStatus.down))) ∧
    (∀ (m : MonState), m.lastStatus = MStatus.pending →
        (bullTransition m true).statusChanged = false ∧
        (timerTransition m true).statusChanged = true) ∧
    (∀ (m : MonState), m.lastStatus = MStatus.down →
        (bullTransition m true).statusChanged = true ∧
        (timerTransition m true).statusChanged = true) ∧
    (∀ (m : MonState), m.lastStatus = MStatus.up →
        (bullTransition m false).statusChanged = true ∧
        (timerTransition m false).statusChanged = true) := by
  refine ⟨?_, ?_, ?_, ?_, ?_⟩
  · intro m success
    simp [bullTransition]
  · intro e success rms nra
    simp [updateAfterCheck]
  · intro m h
    simp [bullTransition, timerTransition, h]
  · intro m h
    simp [bullTransition, timerTransition, h]
  · intro m h
    simp [bullTransition, timerTransition, h]

/-- Witness for C4 amended at concrete inputs: a fresh pending monitor and
a down monitor that recovers. -/
theorem c4_statuschanged_amended_witness :
    ((bullTransition
        { alertAfterFailures := 1, lastStatus := MStatus.pending
          consecutiveFailures := 0, currentIncidentId := none } true).statusChanged = false ∧
     (timerTransition
        { alertAfterFailures := 1, lastStatus := MStatus.pending
          consecutiveFailures := 0, currentIncidentId := none } true).statusChanged = true) ∧
    ((bullTransition
        { alertAfterFailures := 1, lastStatus := MStatus.down
          consecutiveFailures := 2, currentIncidentId := none } true).statusChanged = true ∧
     (timerTransition
        { alertAfterFailures := 1, lastStatus := MStatus.down
          consecutiveFailures := 2, currentIncidentId := none } true).statusChanged = true) :=
  ⟨c4_statuschanged_amended.2.2.1 _ rfl, c4_statuschanged_amended.2.2.2.1 _ rfl⟩

/-- C5 counterexample: a keyword monitor in contains mode whose response
completed with status 404 and whose body does contain the keyword
(case-insensitively) is failed by the code, while the claim says success
is decided solely by the containment. -/
theorem c5_keyword_counterexample :
    (checkKeywordCompleted 404 "server says ok".toList (some "OK".toList)
      "contains").success = false ∧
    jsIncludes (jsToLower "server says ok".toList) (jsToLower "OK".toList) = true := by
  decide

/-- C5 amended: for a completed response, success additionally requires
the status code to lie in the 2xx-3xx range (statuses below 200 or at or
above 400 fail immediately with an HTTP error before the keyword is
examined); within that range and with a nonempty keyword, success is
decided solely by case-insensitive containment of the keyword in the
body: found for contains mode, absent for not_contains mode. -/
theorem c5_keyword_amended :
    (∀ (sc : Nat) (body kw : List Char),
        200 ≤ sc → sc < 400 → kw ≠ [] →
        (((checkKeywordCompleted sc body (some kw) "contains").success = true ↔
            jsIncludes (jsToLower body) (jsToLower kw) = true) ∧
         ((checkKeywordCompleted sc body (some kw) "not_contains").success = true ↔
            jsIncludes (jsToLower body) (jsToLower kw) = false))) ∧
    (∀ (sc : Nat) (body : List Char) (keyword : Option (List Char)) (kt : String),
        sc < 200 ∨ 400 ≤ sc →
        (checkKeywordCompleted sc body keyword kt).success = false ∧
        (checkKeywordCompleted sc body keyword kt).error = some ("HTTP " ++ toString sc)) := by
  constructor
  · intro sc body kw h1 h2 hkw
    have hrange : ¬(sc < 200 ∨ 400 ≤ sc) := by omega
    constructor
    · simp only [checkKeywordCompleted, if_neg hrange, if_neg hkw]
      norm_num
    · simp only [checkKeywordCompleted, if_neg hrange, if_neg hkw]
      norm_num
      cases h : jsIncludes (jsToLower body) (jsToLower kw) <;> simp [h]
  · intro sc body keyword kt h
    constructor
    · simp only [checkKeywordCompleted, if_pos h]
    · simp only [checkKeywordCompleted, if_pos h]

/-- Witness for C5 amended at concrete inputs: a 200 response decided by
containment alone, and a 500 response failed regardless of the keyword. -/
theorem c5_keyword_amended_witness :
    ((checkKeywordCompleted 200 "server says ok".toList (some "OK".toList)
        "contains").success = true ↔
      jsIncludes (jsToLower "server says ok".toList) (jsToLower "OK".toList) = true) ∧
    ((checkKeywordCompleted 500 "server says ok".toList (some "OK".toList)
        "contains").success = false ∧
     (checkKeywordCompleted 500 "server says ok".toList (some "OK".toList)
        "contains").error = some ("HTTP " ++ toString 500)) :=
  ⟨(c5_keyword_amended.1 200 "server says ok".toList "OK".toList
      (by decide) (by decide) (by decide)).1,
   c5_keyword_amended.2 500 "server says ok".toList (some "OK".toList) "contains" (by omega)⟩

/-- C6 counterexample: two checks in a row that both report
daysRemaining = 7 (the certificate sits at a threshold value for a whole
day while checks run far more often) each request an sslExpiry alert, so
two notifications go out for the single threshold value 7. -/
theorem c6_ssl_counterexample :
    sslAlertsAt [some { daysRemaining := 7 }, some { daysRemaining := 7 }] 7 = 2 ∧
    ¬(sslAlertsAt [some { daysRemaining := 7 }, some { daysRemaining := 7 }] 7 ≤ 1) := by
  decide

/-- C6 amended: an sslExpiry alert is requested for a completed check
exactly when the check produced SSL metadata whose daysRemaining is one
of 30, 14, 7, 3, 1 (the additional at-most-30 guard of
processMonitorCheck is redundant); hence checks whose daysRemaining is
not a threshold value never alert, and over a sequence of checks the
number of alerts at a threshold equals the number of checks reporting
exactly that value, which is at most one alert per threshold whenever the
monitor reports each daysRemaining value at most once (one check per
day), not one alert per check for the rest of the window. -/
theorem c6_ssl_threshold_amended :
    (∀ (s : Option SslInfo),
        sslExpiryAlertFires s = true ↔
          ∃ i, s = some i ∧ i.daysRemaining ∈ sslAlertDays) ∧
    (∀ (trace : List (Option SslInfo)) (d : Int),
        d ∈ sslAlertDays →
        sslAlertsAt trace d = trace.count (some { daysRemaining := d })) ∧
    (∀ (trace : List (Option SslInfo)) (d : Int),
        d ∉ sslAlertDays → sslAlertsAt trace d = 0) ∧
    (∀ (trace : List (Option SslInfo)) (d : Int),
        trace.count (some { daysRemaining := d }) ≤ 1 → sslAlertsAt trace d ≤ 1) := by
  have hmem30 : ∀ d : Int, d ∈ sslAlertDays → d ≤ 30 := by
    intro d hd
    have h5 : d = 30 ∨ d = 14 ∨ d = 7 ∨ d = 3 ∨ d = 1 := by
      simpa [sslAlertDays] using hd
    rcases h5 with h | h | h | h | h <;> omega
  have hfires : ∀ (s : Option SslInfo),
      sslExpiryAlertFires s = true ↔
        ∃ i, s = some i ∧ i.daysRemaining ∈ sslAlertDays := by
    intro s
    cases s with
    | none => simp [sslExpiryAlertFires]
    | some i =>
      constructor
      · intro h
        rw [sslExpiryAlertFires, Bool.and_eq_true] at h
        exact ⟨i, rfl, by simpa using h.2⟩
      · rintro ⟨j, hj, hm⟩
        obtain rfl : i = j := by injection hj
        rw [sslExpiryAlertFires, Bool.and_eq_true]
        exact ⟨decide_eq_true (hmem30 _ hm), by simpa using hm⟩
  have hpt : ∀ (d : Int), d ∈ sslAlertDays → ∀ s : Option SslInfo,
      ((sslExpiryAlertFires s &&
        (match s with
         | some j => decide (j.daysRemaining = d)
         | none => false)) = true) ↔
      ((s == some ({ daysRemaining := d } : SslInfo)) = true) := by
    intro d hd s
    cases s with
    | none => simp [sslExpiryAlertFires]
    | some i =>
      obtain ⟨di⟩ := i
      simp only [Bool.and_eq_true, decide_eq_true_eq, beq_iff_eq, Option.some.injEq,
        SslInfo.mk.injEq]
      constructor
      · rintro ⟨-, h⟩
        exact h
      · intro h
        subst h
        exact ⟨(hfires (some ⟨di⟩)).2 ⟨⟨di⟩, rfl, hd⟩, rfl⟩
  have hcount : ∀ (trace : List (Option SslInfo)) (d : Int), d ∈ sslAlertDays →
      sslAlertsAt trace d = trace.count (some ({ daysRemaining := d } : SslInfo)) := by
    intro trace d hd
    have h1 : sslAlertsAt trace d = trace.countP (fun s =>
        sslExpiryAlertFires s &&
          (match s with
           | some j => decide (j.daysRemaining = d)
           | none => false)) :=
      (List.countP_eq_length_filter _ _).symm
    rw [h1]
    have h2 : trace.count (some ({ daysRemaining := d } : SslInfo)) =
        trace.countP (· == some ({ daysRemaining := d } : SslInfo)) := rfl
    rw [h2]
    exact List.countP_congr fun s _ => hpt d hd s
  have hzero : ∀ (trace : List (Option SslInfo)) (d : Int), d ∉ sslAlertDays →
      sslAlertsAt trace d = 0 := by
    intro trace d hd
    have h1 : sslAlertsAt trace d = trace.countP (fun s =>
        sslExpiryAlertFires s &&
          (match s with
           | some j => decide (j.daysRemaining = d)
           | none => false)) :=
      (List.countP_eq_length_filter _ _).symm
    rw [h1, List.countP_eq_zero]
    intro s hs hps
    rw [Bool.and_eq_true] at hps
    obtain ⟨hf, hdd⟩ := hps
    rcases (hfires s).1 hf with ⟨j, rfl, hm⟩
    apply hd
    have : j.daysRemaining = d := by simpa using hdd
    rwa [this] at hm
  refine ⟨hfires, hcount, hzero, ?_⟩
  intro trace d h
  by_cases hd : d ∈ sslAlertDays
  · rw [hcount trace d hd]
    exact h
  · rw [hzero trace d hd]
    omega

/-- Witness for C6 amended at concrete inputs: a trace that visits the
threshold 14 once alerts once there, and a value outside the threshold
set never alerts. -/
theorem c6_ssl_threshold_amended_witness :
    sslAlertsAt [some { daysRemaining := 14 }, some { daysRemaining := 13 }] 14 =
      List.count (some ({ daysRemaining := 14 } : SslInfo))
        ([some { daysRemaining := 14 }, some { daysRemaining := 13 }] :
          List (Option SslInfo)) ∧
    sslAlertsAt [some { daysRemaining := 13 }, some { daysRemaining := 13 }] 13 = 0 ∧
    sslAlertsAt [some { daysRemaining := 14 }, some { daysRemaining := 13 }] 14 ≤ 1 :=
  ⟨c6_ssl_threshold_amended.2.1 _ 14 (by decide),
   c6_ssl_threshold_amended.2.2.1 _ 13 (by decide),
   c6_ssl_threshold_amended.2.2.2 _ 14 (by decide)⟩

theorem resolveIncidents_length (l : List Incident) (iid now : Nat) :
    (resolveIncidents l iid now).length = l.length := by
  simp [resolveIncidents]

/-- C3: the two execution modes diverge on the missed-incident catch-up
input.  A monitor with threshold 1 that is already down with one recorded
failure and no linked incident fails another check: the timer-driven mode
creates an incident, links it and requests a down alert, while the
queue-backed mode does none of that, because its down branch only fires
when the failure count equals the threshold exactly. -/
theorem c3_mode_divergence :
    (timerStep
      { monitor := { alertAfterFailures := 1, lastStatus := MStatus.down
                     consecutiveFailures := 1, currentIncidentId := none }
        incidents := [], nextIncidentId := 0, alerts := [] }
      false 100).incidents.length = 1 ∧
    (bullStep
      { monitor := { alertAfterFailures := 1, lastStatus := MStatus.down
                     consecutiveFailures := 1, currentIncidentId := none }
        incidents := [], nextIncidentId := 0, alerts := [] }
      false 100).incidents.length = 0 ∧
    (timerStep
      { monitor := { alertAfterFailures := 1, lastStatus := MStatus.down
                     consecutiveFailures := 1, currentIncidentId := none }
        incidents := [], nextIncidentId := 0, alerts := [] }
      false 100).alerts = [AlertType.down] ∧
    (bullStep
      { monitor := { alertAfterFailures := 1, lastStatus := MStatus.down
                     consecutiveFailures := 1, currentIncidentId := none }
        incidents := [], nextIncidentId := 0, alerts := [] }
      false 100).alerts = [] ∧
    (timerStep
      { monitor := { alertAfterFailures := 1, lastStatus := MStatus.down
                     consecutiveFailures := 1, currentIncidentId := none }
        incidents := [], nextIncidentId := 0, alerts := [] }
      false 100).monitor.currentIncidentId = some 0 ∧
    (bullStep
      { monitor := { alertAfterFailures := 1, lastStatus := MStatus.down
                     consecutiveFailures := 1, currentIncidentId := none }
        incidents := [], nextIncidentId := 0, alerts := [] }
      false 100).monitor.currentIncidentId = none := by
  decide

/-- C9: when the timer-driven state machine resolves an incident on
recovery (monitor was down, check succeeds, incident linked and open),
the incident ends resolved with resolvedAt = now, duration = now minus
startedAt so that startedAt + duration = resolvedAt exactly, the link is
cleared and an up alert requested; and the invariant that resolvedAt is
set exactly on resolved incidents is preserved across the step. -/
theorem c9_incident_resolution (w : World) (now : Nat) (inc : Incident)
    (hmem : inc ∈ w.incidents)
    (hlink : w.monitor.currentIncidentId = some inc.id)
    (hdown : w.monitor.lastStatus = MStatus.down)
    (hopen : inc.status ≠ IncStatus.resolved)
    (hinv : ∀ j ∈ w.incidents, j.resolvedAt.isSome = true ↔ j.status = IncStatus.resolved)
    (hstart : inc.startedAt ≤ now) :
    ({ inc with
        status := IncStatus.resolved
        resolvedAt := some now
        duration := some (now - inc.startedAt) } : Incident) ∈
      (timerStep w true now).incidents ∧
    (timerStep w true now).monitor.currentIncidentId = none ∧
    (timerStep w true now).alerts = w.alerts ++ [AlertType.up] ∧
    inc.startedAt + (now - inc.startedAt) = now ∧
    (∀ j ∈ (timerStep w true now).incidents,
        j.resolvedAt.isSome = true ↔ j.status = IncStatus.resolved) := by
  have hstep : timerStep w true now =
      { monitor := { w.monitor with
          lastStatus := MStatus.up
          consecutiveFailures := 0
          currentIncidentId := none }
        incidents := resolveIncidents w.incidents inc.id now
        nextIncidentId := w.nextIncidentId
        alerts := w.alerts ++ [AlertType.up] } := by
    simp [timerStep, timerTransition, workerHandleStatusChange, workerDownTrigger,
      recoveryTrigger, hdown, hlink, jsOrInt]
  refine ⟨?_, ?_, ?_, ?_, ?_⟩
  · rw [hstep]
    show _ ∈ resolveIncidents w.incidents inc.id now
    unfold resolveIncidents
    refine List.mem_map.2 ⟨inc, hmem, ?_⟩
    rw [if_pos ⟨rfl, hopen⟩]
  · rw [hstep]
  · rw [hstep]
  · omega
  · rw [hstep]
    intro j hj
    rcases List.mem_map.1 hj with ⟨j0, hj0, rfl⟩
    by_cases hc : j0.id = inc.id ∧ j0.status ≠ IncStatus.resolved
    · rw [if_pos hc]
      simp
    · rw [if_neg hc]
      exact hinv j0 hj0

/-- Witness for C9 at a concrete world: a monitor down with one open
incident recovers at time 100 and the incident started at 40. -/
theorem c9_incident_resolution_witness :
    ({ id := 0, status := IncStatus.resolved, severity := Severity.major
       origin := IncOrigin.auto, startedAt := 40, resolvedAt := some 100
       duration := some 60 } : Incident) ∈
      (timerStep
        { monitor := { alertAfterFailures := 1, lastStatus := MStatus.down
                       consecutiveFailures := 3, currentIncidentId := some 0 }
          incidents := [{ id := 0, status := IncStatus.investigating
                          severity := Severity.major, origin := IncOrigin.auto
                          startedAt := 40, resolvedAt := none, duration := none }]
          nextIncidentId := 1, alerts := [] }
        true 100).incidents :=
  (c9_incident_resolution
    { monitor := { alertAfterFailures := 1, lastStatus := MStatus.down
                   consecutiveFailures := 3, currentIncidentId := some 0 }
      incidents := [{ id := 0, status := IncStatus.investigating
                      severity := Severity.major, origin := IncOrigin.auto
                      startedAt := 40, resolvedAt := none, duration := none }]
      nextIncidentId := 1, alerts := [] }
    100
    { id := 0, status := IncStatus.investigating, severity := Severity.major
      origin := IncOrigin.auto, startedAt := 40, resolvedAt := none, duration := none }
    (by decide) (by decide) (by decide) (by decide) (by decide) (by decide)).1

/-- C10: a cronjob monitor that has never recorded a run succeeds as long
as now is not past the next computed run time plus the grace period, and
fails with the never-reported error exactly after that deadline passes; a
heartbeat monitor that has never pinged fails immediately instead. -/
theorem c10_cron_first_checks (now grace : Nat) (expr : List Char) (hexpr : expr ≠ []) :
    ((checkCronjob now none grace (some expr) none).success = false ↔
      (∃ e, getNextCronRun expr now = some e ∧ e + jsOrNat grace 60 * 1000 < now)) ∧
    ((checkCronjob now none grace (some expr) none).success = false →
      (checkCronjob now none grace (some expr) none).error =
        some "Cron job never reported") ∧
    (∀ (hbNow interval : Nat),
        (checkHeartbeat hbNow none interval).success = false ∧
        (checkHeartbeat hbNow none interval).error = some "No heartbeat received yet") := by
  refine ⟨?_, ?_, ?_⟩
  · simp only [checkCronjob, if_neg hexpr]
    cases h : getNextCronRun expr now with
    | none => simp
    | some e =>
      by_cases hlate : e + jsOrNat grace 60 * 1000 < now
      · simp [hlate]
      · simp [hlate]
  · simp only [checkCronjob, if_neg hexpr]
    cases h : getNextCronRun expr now with
    | none => simp
    | some e =>
      by_cases hlate : e + jsOrNat grace 60 * 1000 < now
      · simp [hlate]
      · simp [hlate]
  · intro hbNow interval
    exact ⟨rfl, rfl⟩

/-- Witness for C10 at concrete inputs: with the every-minute expression
and default grace, a fresh cronjob monitor checked mid-minute succeeds,
while a fresh heartbeat monitor fails. -/
theorem c10_cron_first_checks_witness :
    ((checkCronjob 90061234 none 0 (some "* * * * *".toList) none).success = false ↔
      (∃ e, getNextCronRun "* * * * *".toList 90061234 = some e ∧
        e + jsOrNat 0 60 * 1000 < 90061234)) ∧
    (checkHeartbeat 90061234 none 0).success = false ∧
    (checkHeartbeat 90061234 none 0).error = some "No heartbeat received yet" :=
  ⟨(c10_cron_first_checks 90061234 0 "* * * * *".toList (by decide)).1,
   (c10_cron_first_checks 90061234 0 "* * * * *".toList (by decide)).2.2 90061234 0⟩

theorem workerDownTrigger_iff (m : MonState) (ti : TransitionInfo) :
    workerDownTrigger m ti = true ↔
      (ti.newStatus = MStatus.down ∧
        (ti.consecutiveFailures = jsOrInt m.alertAfterFailures 1 ∨
         (jsOrInt m.alertAfterFailures 1 < ti.consecutiveFailures ∧
          m.currentIncidentId = none))) := by
  simp [workerDownTrigger, Option.isNone_iff_eq_none]
  tauto

/-- C1: a timer-driven check-processing step creates an incident (with
status investigating, severity major, origin auto), links it to the
monitor through currentIncidentId and requests a down alert, exactly when
the transition computed for the check has newStatus down and its failure
count either equals the alertAfterFailures || 1 threshold or exceeds it
while the monitor has no linked incident; in every other case no incident
is appended and no down alert requested. -/
theorem c1_down_incident_trigger :
    ∀ (w : World) (success : Bool) (now : Nat),
      (∃ inc : Incident,
          (timerStep w success now).incidents = w.incidents ++ [inc] ∧
          inc.status = IncStatus.investigating ∧
          inc.severity = Severity.major ∧
          inc.origin = IncOrigin.auto ∧
          (timerStep w success now).monitor.currentIncidentId = some inc.id ∧
          (timerStep w success now).alerts = w.alerts ++ [AlertType.down]) ↔
      ((timerTransition w.monitor success).newStatus = MStatus.down ∧
        ((timerTransition w.monitor success).consecutiveFailures =
            jsOrInt w.monitor.alertAfterFailures 1 ∨
         (jsOrInt w.monitor.alertAfterFailures 1 <
            (timerTransition w.monitor success).consecutiveFailures ∧
          w.monitor.currentIncidentId = none))) := by
  intro w success now
  rw [← workerDownTrigger_iff w.monitor (timerTransition w.monitor success)]
  by_cases hfire : workerDownTrigger w.monitor (timerTransition w.monitor success) = true
  · simp only [hfire, iff_true]
    have hdownS : (timerTransition w.monitor success).newStatus = MStatus.down :=
      ((workerDownTrigger_iff _ _).1 hfire).1
    have hsucc : success = false := by
      cases success
      · rfl
      · exact absurd hdownS (by simp [timerTransition])
    subst hsucc
    have hrec : recoveryTrigger (timerTransition w.monitor false) = false := by
      simp [recoveryTrigger, timerTransition]
    have hfire2 : workerDownTrigger
        { w.monitor with
            lastStatus := (timerTransition w.monitor false).newStatus
            consecutiveFailures := (timerTransition w.monitor false).consecutiveFailures }
        (timerTransition w.monitor false) = true := hfire
    refine ⟨{ id := w.nextIncidentId, status := IncStatus.investigating
              severity := Severity.major, origin := IncOrigin.auto
              startedAt := now, resolvedAt := none, duration := none },
      ?_, rfl, rfl, rfl, ?_, ?_⟩
    · simp [timerStep, workerHandleStatusChange, hfire2, hrec]
    · simp [timerStep, workerHandleStatusChange, hfire2, hrec]
    · simp [timerStep, workerHandleStatusChange, hfire2, hrec]
  · have hf : workerDownTrigger w.monitor (timerTransition w.monitor success) = false :=
      Bool.eq_false_iff.2 hfire
    simp only [hf, Bool.false_eq_true, iff_false]
    rintro ⟨inc, hinc, -, -, -, -, -⟩
    have hf2 : workerDownTrigger
        { w.monitor with
            lastStatus := (timerTransition w.monitor success).newStatus
            consecutiveFailures := (timerTransition w.monitor success).consecutiveFailures }
        (timerTransition w.monitor success) = false := hf
    have hlen : (timerStep w success now).incidents.length = w.incidents.length := by
      simp only [timerStep, workerHandleStatusChange, hf2, Bool.false_eq_true, if_false]
      split
      · split
        · simp [resolveIncidents_length]
        · rfl
      · rfl
    rw [hinc] at hlen
    simp at hlen

end Balaping
